import Mathlib

/-
Shallow embedding of the go-user-service repository (src/user/main.go).

The service exposes two handlers:
  createUser : parse multipart form -> upload photo to Azure blob storage ->
               publish the User record to an Azure Service Bus queue ->
               respond with JSON.
  getUsers   : query the relational store, scan every row, respond with the
               JSON encoding of the accumulated slice.

External collaborators (blob store, service bus, SQL store) are modelled by
an environment of success/failure outcomes and an explicit world state that
the handlers thread through.  Go-specific behaviour relevant to the claims is
modelled faithfully: the nil slice (`var users []User`) JSON-encodes to
`null`, `json.Encoder.Encode` appends a newline, `http.Error` writes the
message plus a newline, map keys are sorted by `encoding/json`, and the
zero `time.Time` marshals to "0001-01-01T00:00:00Z".
-/

/-- Model of Go `time.Time` as consumed by this service: the service never
computes with times, only scans them from the store and JSON-marshals them,
so a time is represented by its RFC3339 rendering. -/
structure GoTime where
  rfc3339 : String
deriving DecidableEq, Repr

/-- The zero `time.Time` marshals to this fixed RFC3339 string. -/
def timeZero : GoTime := ⟨"0001-01-01T00:00:00Z"⟩

/-- Go `User` struct from src/user/main.go (ID int64, Name, Email, Link string,
CreatedAt time.Time), with json tags id, name, email, link, createdAt. -/
structure User where
  id : Int
  name : String
  email : String
  link : String
  createdAt : GoTime
deriving DecidableEq, Repr

/-- Lowercase hex digit, as used by encoding/json for control characters. -/
def hexDigitChar (n : Nat) : Char :=
  if n < 10 then Char.ofNat (48 + n) else Char.ofNat (87 + n)

/-- Per-character escaping of encoding/json (HTML escaping on, the default
for json.Marshal and json.Encoder). -/
def escapeChar (c : Char) : String :=
  if c = '"' then "\\\""
  else if c = '\\' then "\\\\"
  else if c = '\n' then "\\n"
  else if c = '\r' then "\\r"
  else if c = '\t' then "\\t"
  else if c = '<' then "\\u003c"
  else if c = '>' then "\\u003e"
  else if c = '&' then "\\u0026"
  else if c.toNat < 32 then
    "\\u00" ++ String.singleton (hexDigitChar (c.toNat / 16)) ++
      String.singleton (hexDigitChar (c.toNat % 16))
  else String.singleton c

/-- Rendering of a Go string value per encoding/json. -/
def jsonString (s : String) : String :=
  "\"" ++ String.join (s.toList.map escapeChar) ++ "\""

/-- Rendering of a `User` value per encoding/json: struct fields in declaration
order, int64 as a number, time.Time via its RFC3339 form. -/
def jsonMarshalUser (u : User) : String :=
  "\x7b" ++ jsonString "id" ++ ":" ++ toString u.id ++ "," ++
    jsonString "name" ++ ":" ++ jsonString u.name ++ "," ++
    jsonString "email" ++ ":" ++ jsonString u.email ++ "," ++
    jsonString "link" ++ ":" ++ jsonString u.link ++ "," ++
    jsonString "createdAt" ++ ":" ++ "\"" ++ u.createdAt.rfc3339 ++ "\"" ++ "\x7d"

/-- Insertion step for sorting map entries by key. -/
def insertByKey (p : String × String) : List (String × String) → List (String × String)
  | [] => [p]
  | q :: qs => if p.1 ≤ q.1 then p :: q :: qs else q :: insertByKey p qs

/-- Key-sorting step: encoding/json sorts the keys of a Go map before rendering. -/
def sortByKey : List (String × String) → List (String × String)
  | [] => []
  | p :: ps => insertByKey p (sortByKey ps)

/-- Rendering of a Go `map[string]string` value per encoding/json. -/
def jsonMarshalStringMap (m : List (String × String)) : String :=
  "\x7b" ++ String.intercalate ","
      ((sortByKey m).map (fun p => jsonString p.1 ++ ":" ++ jsonString p.2)) ++ "\x7d"

/-- Rendering of a Go `[]User` slice per encoding/json: the nil slice (its zero
value) renders as `null`, a non-nil slice as a JSON array. -/
def jsonMarshalUsersOpt : Option (List User) → String
  | none => "null"
  | some l => "[" ++ String.intercalate "," (l.map jsonMarshalUser) ++ "]"

/-- Encoder step: `json.NewEncoder(w).Encode` writes the marshalled value plus a newline. -/
def encoderEncode (s : String) : String := s ++ "\n"

/-- A blob object as stored by `azblob` `UploadStream`: container, blob name,
content bytes and the ContentType metadata value the service attaches. -/
structure BlobObject where
  container : String
  name : String
  content : List Nat
  contentType : String
deriving DecidableEq, Repr

/-- A message published to the service bus: queue name and body. -/
structure QueueMessage where
  queue : String
  body : String
deriving DecidableEq, Repr

/-- State of the external collaborators threaded through the handlers:
blob store contents, published queue messages, and the rows of the
relational `users` table. -/
structure World where
  blobs : List BlobObject
  messages : List QueueMessage
  dbRows : List User
deriving DecidableEq, Repr

/-- Outcomes of the external SDK calls a single request can make. -/
structure Env where
  blobClientOk : Bool
  blobUploadOk : Bool
  sbClientOk : Bool
  sbSenderOk : Bool
  sbSendOk : Bool
deriving DecidableEq, Repr

/-- Call counts against the three collaborators: blob `UploadStream`
attempts, service-bus `SendMessage` attempts, relational-store operations. -/
structure Trace where
  uploadCalls : Nat
  publishCalls : Nat
  dbCalls : Nat
deriving DecidableEq, Repr

def Trace.add (t1 t2 : Trace) : Trace :=
  ⟨t1.uploadCalls + t2.uploadCalls, t1.publishCalls + t2.publishCalls,
    t1.dbCalls + t2.dbCalls⟩

/-- Semantics of `UploadStream`: writing a blob replaces any object already
stored under the same container and name. -/
def putBlob (w : World) (b : BlobObject) : World :=
  { w with blobs :=
      b :: w.blobs.filter (fun o => ¬(o.container = b.container ∧ o.name = b.name)) }

/-- An HTTP response: status code and body bytes. -/
structure Response where
  status : Nat
  body : String
deriving DecidableEq, Repr

/-- Model of `uploadToBlobStorage` (src/user/main.go:62-79): build a blob client from
the connection string (failure -> error, no upload attempted); compute
`blobURL = "profile-pictures/" ++ filename`; call `UploadStream` on the
hard-coded container "profile-pictures" under `filename`, with metadata
ContentType "image/jpeg"; on failure return the error, on success return
the blobURL. -/
def uploadToBlobStorage (file : List Nat) (filename : String) (env : Env) (w : World) :
    Except String String × World × Trace :=
  if env.blobClientOk = false then
    (Except.error "failed to create blob client", w, ⟨0, 0, 0⟩)
  else
    let blobURL := "profile-pictures" ++ "/" ++ filename
    if env.blobUploadOk = false then
      (Except.error "failed to upload to blob", w, ⟨1, 0, 0⟩)
    else
      (Except.ok blobURL,
        putBlob w ⟨"profile-pictures", filename, file, "image/jpeg"⟩, ⟨1, 0, 0⟩)

/-- Model of `sendToServiceBus` (src/user/main.go:82-112): build a service-bus client
(failure -> error), open a sender on the hard-coded queue "user-queue"
(failure -> error), marshal the user to JSON (cannot fail for this struct
type), send it as a single message body; on send failure return the error,
else success. -/
def sendToServiceBus (user : User) (env : Env) (w : World) :
    Except String Unit × World × Trace :=
  if env.sbClientOk = false then
    (Except.error "failed to create service bus client", w, ⟨0, 0, 0⟩)
  else if env.sbSenderOk = false then
    (Except.error "failed to create sender", w, ⟨0, 0, 0⟩)
  else
    let userData := jsonMarshalUser user
    if env.sbSendOk = false then
      (Except.error "failed to send message to service bus", w, ⟨0, 1, 0⟩)
    else
      (Except.ok (), { w with messages := w.messages ++ [⟨"user-queue", userData⟩] },
        ⟨0, 1, 0⟩)

/-- A create request: the `name` and `email` form values, and the result of
`r.FormFile("photo")`: `none` when the file part is absent or malformed,
otherwise the file content together with `header.Filename`. -/
structure CreateRequest where
  name : String
  email : String
  photo : Option (List Nat × String)
deriving DecidableEq, Repr

/-- Model of `createUser` (src/user/main.go:115-154): on a missing/malformed photo
part respond 400 "Invalid file upload"; upload the photo, on failure respond
500 "Error uploading file"; build the User from name, email and the blob
URL (ID and CreatedAt left as zero values); publish it, on failure respond
500 "Error sending user data"; on success respond 200 with the JSON map
containing the fixed message and the profile picture URL. -/
def createUser (r : CreateRequest) (env : Env) (w : World) :
    Response × World × Trace :=
  match r.photo with
  | none => (⟨400, "Invalid file upload" ++ "\n"⟩, w, ⟨0, 0, 0⟩)
  | some (file, filename) =>
    match uploadToBlobStorage file filename env w with
    | (Except.error _, w1, t1) => (⟨500, "Error uploading file" ++ "\n"⟩, w1, t1)
    | (Except.ok profilePicURL, w1, t1) =>
      let user : User :=
        { id := 0, name := r.name, email := r.email, link := profilePicURL,
          createdAt := timeZero }
      match sendToServiceBus user env w1 with
      | (Except.error _, w2, t2) =>
        (⟨500, "Error sending user data" ++ "\n"⟩, w2, t1.add t2)
      | (Except.ok _, w2, t2) =>
        (⟨200, encoderEncode (jsonMarshalStringMap
            [("message", "User created successfully"),
             ("profile_pic_url", profilePicURL)])⟩, w2, t1.add t2)

/-- The loop body of `getUsers`: iterate the row cursor; a scan failure
aborts with 500 "Error scanning user data" and discards the users
accumulated so far; each successful scan appends to the slice (appending to
the nil slice makes it non-nil). -/
def getUsersLoop : List (Except String User) → Option (List User) → Response
  | [], users => ⟨200, encoderEncode (jsonMarshalUsersOpt users)⟩
  | Except.error _ :: _, _ => ⟨500, "Error scanning user data" ++ "\n"⟩
  | Except.ok u :: rest, users => getUsersLoop rest (some (users.getD [] ++ [u]))

/-- Outcome of a successful `db.Query` as the row cursor delivers it:
`rows` are the per-row scan outcomes for the rows the cursor delivered, in
store order; `iterErr` is a cursor failure that ended the iteration early —
after the rows in `rows` — making `rows.Next()` return false with the error
available only through `rows.Err()`.  `none` means iteration ended cleanly
at the end of the result set. -/
structure QueryRows where
  rows : List (Except String User)
  iterErr : Option String
deriving Repr

/-- Model of `getUsers` (src/user/main.go:157-178): run `SELECT * FROM users`; a
query failure responds 500 "Error fetching users"; otherwise loop over the
delivered rows, scanning each into the slice declared as `var users []User`
(the nil slice), and encode the slice once `rows.Next()` returns false.
The handler never checks `rows.Err()` after the loop, so a mid-iteration
cursor failure (`iterErr`) is indistinguishable from a clean end of the
result set: the rows delivered before the failure are encoded with 200. -/
def getUsers (q : Except String QueryRows) : Response :=
  match q with
  | Except.error _ => ⟨500, "Error fetching users" ++ "\n"⟩
  | Except.ok qr => getUsersLoop qr.rows none

/-- The Go slice value a list of appended users denotes: nil when nothing
was appended, non-nil otherwise. -/
def goSlice (l : List User) : Option (List User) :=
  match l with
  | [] => none
  | _ => some l

/-- A row outcome is a scan failure. -/
def isScanErr (r : Except String User) : Bool :=
  match r with
  | Except.error _ => true
  | Except.ok _ => false

/-- All five collaborator outcomes succeed. -/
def Env.allOk (env : Env) : Bool :=
  env.blobClientOk && env.blobUploadOk && env.sbClientOk && env.sbSenderOk && env.sbSendOk

/-- Go slice value after appending each user of a list in turn. -/
def appendAll : Option (List User) → List User → Option (List User)
  | acc, [] => acc
  | acc, u :: us => appendAll (some (acc.getD [] ++ [u])) us

/-- A demonstration user row. -/
def demoU : User :=
  ⟨7, "bob", "bob@example.com", "profile-pictures/b.jpg", ⟨"2024-01-02T03:04:05Z"⟩⟩

lemma getUsersLoop_scan_err (rows : List (Except String User))
    (h : rows.any isScanErr = true) (acc : Option (List User)) :
    getUsersLoop rows acc = ⟨500, "Error scanning user data" ++ "\n"⟩ := by
  induction rows generalizing acc with
  | nil => simp at h
  | cons r rest ih =>
    cases r with
    | error e => rfl
    | ok u =>
      rw [List.any_cons] at h
      simp only [isScanErr, Bool.false_or] at h
      exact ih h _

lemma getUsersLoop_all_ok (us : List User) (acc : Option (List User)) :
    getUsersLoop (us.map Except.ok) acc =
      ⟨200, encoderEncode (jsonMarshalUsersOpt (appendAll acc us))⟩ := by
  induction us generalizing acc with
  | nil => rfl
  | cons u rest ih => exact ih _

lemma appendAll_some (l : List User) (us : List User) :
    appendAll (some l) us = some (l ++ us) := by
  induction us generalizing l with
  | nil => simp [appendAll]
  | cons u rest ih => simp [appendAll, ih]

lemma appendAll_none (us : List User) : appendAll none us = goSlice us := by
  cases us with
  | nil => rfl
  | cons u rest => simp [appendAll, appendAll_some, goSlice]

lemma not_mem_cons_filter (b bp : BlobObject) (l : List BlobObject)
    (hc : bp.container = b.container) (hn : bp.name = b.name) (hne : bp ≠ b) :
    bp ∉ b :: l.filter (fun o => ¬(o.container = b.container ∧ o.name = b.name)) := by
  intro hmem
  rcases List.mem_cons.mp hmem with heq | hmem2
  · exact hne heq
  · have hp := (List.mem_filter.mp hmem2).2
    simp [hc, hn] at hp

/-- Claim C2, counterexample: on an empty table (query succeeds, zero rows)
`getUsers` responds 200, but the body is the JSON literal `null` followed by
the encoder newline, not the empty JSON array `[]` — the Go nil slice
`var users []User` encodes to `null`. -/
theorem getUsers_empty_body_is_null_not_brackets :
    (getUsers (Except.ok ⟨[], none⟩)).status = 200 ∧
    (getUsers (Except.ok ⟨[], none⟩)).body = "null" ++ "\n" ∧
    (getUsers (Except.ok ⟨[], none⟩)).body ≠ "[]" ++ "\n" :=
  ⟨rfl, rfl, by decide⟩

/-- Claim C2, amended: on an empty table (query succeeds, zero rows)
`getUsers` responds 200 — not an error — with the encoder output for the nil
slice, which is `null`, not `[]`. -/
theorem getUsers_empty_table_ok :
    (getUsers (Except.ok ⟨[], none⟩)).status = 200 ∧
    (getUsers (Except.ok ⟨[], none⟩)).body = encoderEncode (jsonMarshalUsersOpt none) :=
  ⟨rfl, rfl⟩

/-- Claim C3, counterexample: a cursor failure in mid-iteration — one row
delivered and scanned, then the cursor fails, so `rows.Next()` returns
false with the error held only in the never-checked `rows.Err()` — does NOT
make the operation fail: `getUsers` responds 200 and its body is the
partial slice holding the one delivered row, refuting "iteration fails =>
500 with no partial result". -/
theorem getUsers_iteration_failure_gives_200_partial :
    (getUsers (Except.ok ⟨[Except.ok demoU], some "connection reset"⟩)).status = 200 ∧
    (getUsers (Except.ok ⟨[Except.ok demoU], some "connection reset"⟩)).status ≠ 500 ∧
    (getUsers (Except.ok ⟨[Except.ok demoU], some "connection reset"⟩)).body =
      encoderEncode (jsonMarshalUsersOpt (some [demoU])) :=
  ⟨rfl, by decide, rfl⟩

/-- Claim C3, amended: a failed query responds 500 with the static
fetch-error body; a scan failure anywhere among the delivered rows responds
500 with the static scan-error body and no partial result leaks into the
response; when every delivered row scans successfully the response is 200
with exactly those rows, in store order, encoded as the Go slice they were
appended into — regardless of whether iteration ended cleanly or with a
cursor failure, since `rows.Err()` is never checked: a mid-iteration
failure yields 200 with the partial slice, not 500. -/
theorem getUsers_error_handling (q : Except String QueryRows) :
    (∀ e, q = Except.error e →
      getUsers q = ⟨500, "Error fetching users" ++ "\n"⟩) ∧
    (∀ qr : QueryRows, q = Except.ok qr → qr.rows.any isScanErr = true →
      getUsers q = ⟨500, "Error scanning user data" ++ "\n"⟩) ∧
    (∀ us : List User, ∀ ie : Option String, q = Except.ok ⟨us.map Except.ok, ie⟩ →
      getUsers q = ⟨200, encoderEncode (jsonMarshalUsersOpt (goSlice us))⟩) := by
  refine ⟨?_, ?_, ?_⟩
  · intro e he; subst he; rfl
  · intro qr hq herr; subst hq
    exact getUsersLoop_scan_err qr.rows herr none
  · intro us ie hq; subst hq
    show getUsersLoop (us.map Except.ok) none = _
    rw [getUsersLoop_all_ok, appendAll_none]

/-- Claim C3 witness: the branches evaluated at concrete store outcomes,
the all-rows-scanned branch exercised both with a clean end of iteration
and with a mid-iteration cursor failure. -/
theorem getUsers_error_handling_witness :
    getUsers (Except.error "db down") = ⟨500, "Error fetching users" ++ "\n"⟩ ∧
    getUsers (Except.ok ⟨[Except.ok demoU, Except.error "scan fail"], none⟩) =
      ⟨500, "Error scanning user data" ++ "\n"⟩ ∧
    getUsers (Except.ok ⟨List.map Except.ok [demoU], none⟩) =
      ⟨200, encoderEncode (jsonMarshalUsersOpt (goSlice [demoU]))⟩ ∧
    getUsers (Except.ok ⟨List.map Except.ok [demoU], some "conn dropped"⟩) =
      ⟨200, encoderEncode (jsonMarshalUsersOpt (goSlice [demoU]))⟩ :=
  ⟨(getUsers_error_handling _).1 "db down" rfl,
   (getUsers_error_handling _).2.1 ⟨[Except.ok demoU, Except.error "scan fail"], none⟩ rfl rfl,
   (getUsers_error_handling _).2.2 [demoU] none rfl,
   (getUsers_error_handling _).2.2 [demoU] (some "conn dropped") rfl⟩

/-- Claim C5: when the photo file part is absent or malformed, `createUser`
responds 400, makes zero upload calls and zero publish calls, and leaves the
world (blob store, queue, database) unchanged. -/
theorem createUser_missing_photo (r : CreateRequest) (env : Env) (w : World)
    (hphoto : r.photo = none) :
    (createUser r env w).1.status = 400 ∧
    (createUser r env w).2.2.uploadCalls = 0 ∧
    (createUser r env w).2.2.publishCalls = 0 ∧
    (createUser r env w).2.1 = w := by
  obtain ⟨n, e, ph⟩ := r
  cases hphoto
  exact ⟨rfl, rfl, rfl, rfl⟩

/-- Claim C5 witness: a concrete request with no photo part. -/
theorem createUser_missing_photo_witness :
    (createUser ⟨"alice", "alice@example.com", none⟩
        ⟨true, true, true, true, true⟩ ⟨[], [], []⟩).1.status = 400 ∧
    (createUser ⟨"alice", "alice@example.com", none⟩
        ⟨true, true, true, true, true⟩ ⟨[], [], []⟩).2.2.uploadCalls = 0 ∧
    (createUser ⟨"alice", "alice@example.com", none⟩
        ⟨true, true, true, true, true⟩ ⟨[], [], []⟩).2.2.publishCalls = 0 ∧
    (createUser ⟨"alice", "alice@example.com", none⟩
        ⟨true, true, true, true, true⟩ ⟨[], [], []⟩).2.1 = ⟨[], [], []⟩ :=
  createUser_missing_photo ⟨"alice", "alice@example.com", none⟩
    ⟨true, true, true, true, true⟩ ⟨[], [], []⟩ rfl

/-- Claim C6: when the blob upload fails (client construction or the stream
transfer), `createUser` responds 500 and the queue publish is never
attempted: zero publish calls and no message added. -/
theorem createUser_upload_failure_no_publish (r : CreateRequest) (env : Env) (w : World)
    (file : List Nat) (fn : String)
    (hphoto : r.photo = some (file, fn))
    (hfail : env.blobClientOk = false ∨ env.blobUploadOk = false) :
    (createUser r env w).1.status = 500 ∧
    (createUser r env w).2.2.publishCalls = 0 ∧
    (createUser r env w).2.1.messages = w.messages := by
  obtain ⟨n, e, ph⟩ := r
  cases hphoto
  obtain ⟨bc, bu, sc, ss, se⟩ := env
  rcases hfail with hf | hf
  · cases hf
    exact ⟨rfl, rfl, rfl⟩
  · cases hf
    cases bc with
    | false => exact ⟨rfl, rfl, rfl⟩
    | true => exact ⟨rfl, rfl, rfl⟩

/-- Claim C6 witness: a concrete request whose blob transfer fails. -/
theorem createUser_upload_failure_no_publish_witness :
    (createUser ⟨"alice", "alice@example.com", some ([1, 2], "pic.jpg")⟩
        ⟨true, false, true, true, true⟩ ⟨[], [], []⟩).1.status = 500 ∧
    (createUser ⟨"alice", "alice@example.com", some ([1, 2], "pic.jpg")⟩
        ⟨true, false, true, true, true⟩ ⟨[], [], []⟩).2.2.publishCalls = 0 ∧
    (createUser ⟨"alice", "alice@example.com", some ([1, 2], "pic.jpg")⟩
        ⟨true, false, true, true, true⟩ ⟨[], [], []⟩).2.1.messages = ([] : List QueueMessage) :=
  createUser_upload_failure_no_publish ⟨"alice", "alice@example.com", some ([1, 2], "pic.jpg")⟩
    ⟨true, false, true, true, true⟩ ⟨[], [], []⟩ [1, 2] "pic.jpg" rfl (Or.inr rfl)

/-- Claim C9: the create path never touches the relational store: for every
request, environment and world the handler makes zero database calls and
leaves the user table rows exactly as they were. -/
theorem createUser_never_touches_db (r : CreateRequest) (env : Env) (w : World) :
    (createUser r env w).2.2.dbCalls = 0 ∧
    (createUser r env w).2.1.dbRows = w.dbRows := by
  obtain ⟨n, e, ph⟩ := r
  obtain ⟨bc, bu, sc, ss, se⟩ := env
  rcases ph with _ | ⟨f, fn⟩
  · exact ⟨rfl, rfl⟩
  · cases bc <;> cases bu <;> cases sc <;> cases ss <;> cases se <;>
      exact ⟨rfl, rfl⟩

/-- Claim C7: whenever the upload is performed and succeeds, the object is
written to the hard-coded container "profile-pictures" under the given
filename with ContentType metadata "image/jpeg" — whatever the file bytes
are — and the returned reference is the container joined with the
filename. -/
theorem uploadToBlobStorage_fixed_container_and_type (file : List Nat) (fn : String)
    (env : Env) (w : World)
    (hbc : env.blobClientOk = true) (hbu : env.blobUploadOk = true) :
    (uploadToBlobStorage file fn env w).1 =
      Except.ok ("profile-pictures" ++ "/" ++ fn) ∧
    (uploadToBlobStorage file fn env w).2.1 =
      putBlob w ⟨"profile-pictures", fn, file, "image/jpeg"⟩ := by
  obtain ⟨bc, bu, sc, ss, se⟩ := env
  cases hbc
  cases hbu
  exact ⟨rfl, rfl⟩

/-- Claim C7 witness: a text file uploaded under a .txt name is still tagged
image/jpeg in the fixed container. -/
theorem uploadToBlobStorage_fixed_container_and_type_witness :
    (uploadToBlobStorage [104, 105] "notes.txt"
        ⟨true, true, false, false, false⟩ ⟨[], [], []⟩).1 =
      Except.ok ("profile-pictures" ++ "/" ++ "notes.txt") ∧
    (uploadToBlobStorage [104, 105] "notes.txt"
        ⟨true, true, false, false, false⟩ ⟨[], [], []⟩).2.1 =
      putBlob ⟨[], [], []⟩ ⟨"profile-pictures", "notes.txt", [104, 105], "image/jpeg"⟩ :=
  uploadToBlobStorage_fixed_container_and_type [104, 105] "notes.txt"
    ⟨true, true, false, false, false⟩ ⟨[], [], []⟩ rfl rfl

/-- Claim C1: with a valid photo part and all collaborator calls succeeding,
`createUser` responds 200 with the JSON map whose message field is the
literal "User created successfully" and whose profile_pic_url field is a
non-empty string. -/
theorem createUser_success_response (r : CreateRequest) (env : Env) (w : World)
    (file : List Nat) (fn : String)
    (hphoto : r.photo = some (file, fn)) (henv : env.allOk = true) :
    (createUser r env w).1.status = 200 ∧
    ∃ url : String, url ≠ "" ∧
      (createUser r env w).1.body =
        encoderEncode (jsonMarshalStringMap
          [("message", "User created successfully"), ("profile_pic_url", url)]) := by
  obtain ⟨n, e, ph⟩ := r
  cases hphoto
  obtain ⟨bc, bu, sc, ss, se⟩ := env
  simp only [Env.allOk, Bool.and_eq_true] at henv
  obtain ⟨⟨⟨⟨hbc, hbu⟩, hsc⟩, hss⟩, hse⟩ := henv
  cases hbc; cases hbu; cases hsc; cases hss; cases hse
  refine ⟨rfl, "profile-pictures" ++ "/" ++ fn, ?_, rfl⟩
  intro h
  have hl := congrArg String.length h
  simp [String.length_append] at hl
  exact absurd hl.1 (by decide)

/-- Claim C1 witness: a concrete fully successful create. -/
theorem createUser_success_response_witness :
    (createUser ⟨"alice", "alice@example.com", some ([1, 2, 3], "pic.jpg")⟩
        ⟨true, true, true, true, true⟩ ⟨[], [], []⟩).1.status = 200 ∧
    ∃ url : String, url ≠ "" ∧
      (createUser ⟨"alice", "alice@example.com", some ([1, 2, 3], "pic.jpg")⟩
          ⟨true, true, true, true, true⟩ ⟨[], [], []⟩).1.body =
        encoderEncode (jsonMarshalStringMap
          [("message", "User created successfully"), ("profile_pic_url", url)]) :=
  createUser_success_response ⟨"alice", "alice@example.com", some ([1, 2, 3], "pic.jpg")⟩
    ⟨true, true, true, true, true⟩ ⟨[], [], []⟩ [1, 2, 3] "pic.jpg" rfl rfl

/-- Claim C4: when the upload succeeds and the publish then fails at any
stage, `createUser` responds 500 and the uploaded blob object is still
present in the final blob store: no compensating delete is performed. -/
theorem createUser_publish_failure_keeps_blob (r : CreateRequest) (env : Env) (w : World)
    (file : List Nat) (fn : String)
    (hphoto : r.photo = some (file, fn))
    (hbc : env.blobClientOk = true) (hbu : env.blobUploadOk = true)
    (hfail : env.sbClientOk = false ∨ env.sbSenderOk = false ∨ env.sbSendOk = false) :
    (createUser r env w).1.status = 500 ∧
    (⟨"profile-pictures", fn, file, "image/jpeg"⟩ : BlobObject) ∈
      (createUser r env w).2.1.blobs := by
  obtain ⟨n, e, ph⟩ := r
  cases hphoto
  obtain ⟨bc, bu, sc, ss, se⟩ := env
  cases hbc; cases hbu
  rcases hfail with hf | hf | hf
  · cases hf
    exact ⟨rfl, List.mem_cons_self _ _⟩
  · cases hf
    cases sc with
    | false => exact ⟨rfl, List.mem_cons_self _ _⟩
    | true => exact ⟨rfl, List.mem_cons_self _ _⟩
  · cases hf
    cases sc with
    | false => exact ⟨rfl, List.mem_cons_self _ _⟩
    | true =>
      cases ss with
      | false => exact ⟨rfl, List.mem_cons_self _ _⟩
      | true => exact ⟨rfl, List.mem_cons_self _ _⟩

/-- Claim C4 witness: a concrete request whose service-bus send fails after
a successful upload; the blob remains stored. -/
theorem createUser_publish_failure_keeps_blob_witness :
    (createUser ⟨"alice", "alice@example.com", some ([9], "pic.jpg")⟩
        ⟨true, true, true, true, false⟩ ⟨[], [], []⟩).1.status = 500 ∧
    (⟨"profile-pictures", "pic.jpg", [9], "image/jpeg"⟩ : BlobObject) ∈
      (createUser ⟨"alice", "alice@example.com", some ([9], "pic.jpg")⟩
          ⟨true, true, true, true, false⟩ ⟨[], [], []⟩).2.1.blobs :=
  createUser_publish_failure_keeps_blob
    ⟨"alice", "alice@example.com", some ([9], "pic.jpg")⟩
    ⟨true, true, true, true, false⟩ ⟨[], [], []⟩ [9] "pic.jpg" rfl rfl rfl
    (Or.inr (Or.inr rfl))

/-- Claim C8: on a fully successful create exactly one message is appended
to the queue state, addressed to the fixed queue "user-queue", whose body is
the JSON serialization of the constructed User — whose id and createdAt are
the zero values, never set by the service nor read back from storage. -/
theorem createUser_publishes_constructed_user (r : CreateRequest) (env : Env) (w : World)
    (file : List Nat) (fn : String)
    (hphoto : r.photo = some (file, fn)) (henv : env.allOk = true) :
    (createUser r env w).2.1.messages =
      w.messages ++ [⟨"user-queue",
        jsonMarshalUser ⟨0, r.name, r.email, "profile-pictures" ++ "/" ++ fn, timeZero⟩⟩] ∧
    (createUser r env w).2.2.publishCalls = 1 := by
  obtain ⟨n, e, ph⟩ := r
  cases hphoto
  obtain ⟨bc, bu, sc, ss, se⟩ := env
  simp only [Env.allOk, Bool.and_eq_true] at henv
  obtain ⟨⟨⟨⟨hbc, hbu⟩, hsc⟩, hss⟩, hse⟩ := henv
  cases hbc; cases hbu; cases hsc; cases hss; cases hse
  exact ⟨rfl, rfl⟩

/-- Claim C8 witness: the concrete message published by a successful
create. -/
theorem createUser_publishes_constructed_user_witness :
    (createUser ⟨"alice", "alice@example.com", some ([1], "pic.jpg")⟩
        ⟨true, true, true, true, true⟩ ⟨[], [], []⟩).2.1.messages =
      [] ++ [⟨"user-queue",
        jsonMarshalUser ⟨0, "alice", "alice@example.com",
          "profile-pictures" ++ "/" ++ "pic.jpg", timeZero⟩⟩] ∧
    (createUser ⟨"alice", "alice@example.com", some ([1], "pic.jpg")⟩
        ⟨true, true, true, true, true⟩ ⟨[], [], []⟩).2.2.publishCalls = 1 :=
  createUser_publishes_constructed_user
    ⟨"alice", "alice@example.com", some ([1], "pic.jpg")⟩
    ⟨true, true, true, true, true⟩ ⟨[], [], []⟩ [1] "pic.jpg" rfl rfl

/-- Claim C10: the returned photo reference depends only on the
client-supplied filename — it is the fixed container joined with that
filename — so two successful creates carrying the same filename produce the
same response body and target the same blob object: after the second create
the stored object under that name holds the second file content, and the
first content is gone whenever it differs. -/
theorem createUser_same_filename_same_target (r1 r2 : CreateRequest) (env1 env2 : Env)
    (w : World) (f1 f2 : List Nat) (fn : String)
    (h1 : r1.photo = some (f1, fn)) (h2 : r2.photo = some (f2, fn))
    (e1 : env1.allOk = true) (e2 : env2.allOk = true) :
    (createUser r1 env1 w).1.body =
      encoderEncode (jsonMarshalStringMap
        [("message", "User created successfully"),
         ("profile_pic_url", "profile-pictures" ++ "/" ++ fn)]) ∧
    (createUser r2 env2 ((createUser r1 env1 w).2.1)).1.body =
      (createUser r1 env1 w).1.body ∧
    (⟨"profile-pictures", fn, f2, "image/jpeg"⟩ : BlobObject) ∈
      (createUser r2 env2 ((createUser r1 env1 w).2.1)).2.1.blobs ∧
    (f1 ≠ f2 → (⟨"profile-pictures", fn, f1, "image/jpeg"⟩ : BlobObject) ∉
      (createUser r2 env2 ((createUser r1 env1 w).2.1)).2.1.blobs) := by
  obtain ⟨n1, em1, ph1⟩ := r1
  obtain ⟨n2, em2, ph2⟩ := r2
  cases h1
  cases h2
  obtain ⟨bc1, bu1, sc1, ss1, se1⟩ := env1
  obtain ⟨bc2, bu2, sc2, ss2, se2⟩ := env2
  simp only [Env.allOk, Bool.and_eq_true] at e1 e2
  obtain ⟨⟨⟨⟨hbc1, hbu1⟩, hsc1⟩, hss1⟩, hse1⟩ := e1
  obtain ⟨⟨⟨⟨hbc2, hbu2⟩, hsc2⟩, hss2⟩, hse2⟩ := e2
  cases hbc1; cases hbu1; cases hsc1; cases hss1; cases hse1
  cases hbc2; cases hbu2; cases hsc2; cases hss2; cases hse2
  refine ⟨rfl, rfl, List.mem_cons_self _ _, ?_⟩
  intro hne
  exact not_mem_cons_filter ⟨"profile-pictures", fn, f2, "image/jpeg"⟩
    ⟨"profile-pictures", fn, f1, "image/jpeg"⟩ _ rfl rfl
    (fun heq => hne (congrArg BlobObject.content heq))

/-- Claim C10 witness: two creates with different file bytes under the same
filename — identical bodies, second content stored, first content gone. -/
theorem createUser_same_filename_same_target_witness :
    (createUser ⟨"alice", "a@x.com", some ([1], "p.jpg")⟩
        ⟨true, true, true, true, true⟩ ⟨[], [], []⟩).1.body =
      encoderEncode (jsonMarshalStringMap
        [("message", "User created successfully"),
         ("profile_pic_url", "profile-pictures" ++ "/" ++ "p.jpg")]) ∧
    (createUser ⟨"bob", "b@x.com", some ([2], "p.jpg")⟩ ⟨true, true, true, true, true⟩
        ((createUser ⟨"alice", "a@x.com", some ([1], "p.jpg")⟩
          ⟨true, true, true, true, true⟩ ⟨[], [], []⟩).2.1)).1.body =
      (createUser ⟨"alice", "a@x.com", some ([1], "p.jpg")⟩
        ⟨true, true, true, true, true⟩ ⟨[], [], []⟩).1.body ∧
    (⟨"profile-pictures", "p.jpg", [2], "image/jpeg"⟩ : BlobObject) ∈
      (createUser ⟨"bob", "b@x.com", some ([2], "p.jpg")⟩ ⟨true, true, true, true, true⟩
        ((createUser ⟨"alice", "a@x.com", some ([1], "p.jpg")⟩
          ⟨true, true, true, true, true⟩ ⟨[], [], []⟩).2.1)).2.1.blobs ∧
    (([1] : List Nat) ≠ [2] →
      (⟨"profile-pictures", "p.jpg", [1], "image/jpeg"⟩ : BlobObject) ∉
        (createUser ⟨"bob", "b@x.com", some ([2], "p.jpg")⟩ ⟨true, true, true, true, true⟩
          ((createUser ⟨"alice", "a@x.com", some ([1], "p.jpg")⟩
            ⟨true, true, true, true, true⟩ ⟨[], [], []⟩).2.1)).2.1.blobs) :=
  createUser_same_filename_same_target
    ⟨"alice", "a@x.com", some ([1], "p.jpg")⟩ ⟨"bob", "b@x.com", some ([2], "p.jpg")⟩
    ⟨true, true, true, true, true⟩ ⟨true, true, true, true, true⟩
    ⟨[], [], []⟩ [1] [2] "p.jpg" rfl rfl rfl rfl
